import Mathlib

/-!
Verification of the orchestration / sparkline aggregation layer of the
`jat` dashboard repository.

The definitions below are shallow embeddings of the JavaScript/TypeScript
source:
* `calculateCost` from `src/lib/utils/tokenUsage.ts` (reproduced verbatim in
  `dashboard/docs/claude-api-usage-metrics-guide.md`), with JS numbers
  modelled as rationals;
* `fetchAgentMetrics` staleness classification from
  `src/lib/utils/claudeUsageMetrics.ts` (same guide);
* the `/api/orchestration` GET handler (agent statistics, task statistics,
  response shaping, error handling);
* `getAgentActivities` (activity-log reader) and
  `getAgentActivitiesFromBeads` (`src/lib/utils/beadsActivity.js`);
* the `/api/agents/sparkline` GET handler with its in-memory TTL cache
  (`getCached` / `setCache` / `getCacheKey`).

JavaScript conventions are modelled explicitly: `null`/`undefined` become
`Option`, string falsiness (`!s`) becomes comparison with `""`, epoch
milliseconds become `Int`, and `Date.now()` is threaded as an explicit
`now` parameter.
-/

namespace Jat

/-! ## Cost calculator (`calculateCost`) -/

/-- Token usage tuple, one field per token class, as in `TokenUsage`.
JS numbers are modelled as rationals. -/
structure TokenUsage where
  input_tokens : ℚ
  cache_creation_input_tokens : ℚ
  cache_read_input_tokens : ℚ
  output_tokens : ℚ

/-- `calculateCost` from the metrics guide / `tokenUsage.ts`:
per-million-token rates 3.00 (input), 15.00 (output), 3.75 (cache write),
0.30 (cache read), summed. -/
def calculateCost (usage : TokenUsage) : ℚ :=
  let inputCost := usage.input_tokens / 1000000 * 3.00
  let outputCost := usage.output_tokens / 1000000 * 15.00
  let cacheWriteCost := usage.cache_creation_input_tokens / 1000000 * 3.75
  let cacheReadCost := usage.cache_read_input_tokens / 1000000 * 0.30
  inputCost + outputCost + cacheWriteCost + cacheReadCost

/-! ## Agent staleness classification (`fetchAgentMetrics`) -/

/-- Agent row as consumed by `fetchAgentMetrics`: only the last-activity
timestamp (epoch milliseconds, `new Date(a.last_activity_ts).getTime()`)
matters for the classification. -/
structure MetricsAgent where
  last_activity_ts : Int

/-- `(Date.now() - new Date(a.last_activity_ts).getTime()) / 60000` —
minutes since the agent's most recent activity. -/
def minutesSinceActivity (now : Int) (a : MetricsAgent) : ℚ :=
  ((now - a.last_activity_ts : Int) : ℚ) / 60000

/-- Working filter: `minutesSinceActivity < 10`. -/
def isWorking (now : Int) (a : MetricsAgent) : Bool :=
  minutesSinceActivity now a < 10

/-- Idle filter: `minutesSinceActivity >= 10 && minutesSinceActivity < 60`. -/
def isIdle (now : Int) (a : MetricsAgent) : Bool :=
  10 ≤ minutesSinceActivity now a && minutesSinceActivity now a < 60

/-- Sleeping filter: `minutesSinceActivity >= 60`. -/
def isSleeping (now : Int) (a : MetricsAgent) : Bool :=
  60 ≤ minutesSinceActivity now a

/-- Result shape of `fetchAgentMetrics`. -/
structure AgentMetrics where
  totalAgents : Nat
  workingAgents : Nat
  idleAgents : Nat
  sleepingAgents : Nat
  loadPercentage : Int

/-- `fetchAgentMetrics`, with the agent list (parsed `am-agents --json`
output) and the clock passed explicitly.  `Math.round` on the non-negative
load ratio is `⌊x + 1/2⌋`. -/
def fetchAgentMetrics (agents : List MetricsAgent) (now : Int) : AgentMetrics :=
  let working := (agents.filter (isWorking now)).length
  { totalAgents := agents.length
    workingAgents := working
    idleAgents := (agents.filter (isIdle now)).length
    sleepingAgents := (agents.filter (isSleeping now)).length
    loadPercentage :=
      if agents.length > 0 then
        ⌊((working : ℚ) / (agents.length : ℚ)) * 100 + 1/2⌋
      else 0 }

end Jat

namespace Jat

/-! ## Orchestration data model -/

/-- Agent row from the agent-mail store (`getAgents`).  Only the name is
inspected by the orchestration aggregation; the remaining registration
columns are carried opaquely by the `...agent` spread. -/
structure Agent where
  name : String
deriving DecidableEq, Repr

/-- Reservation row (`getReservations`).  `released_ts` is `none` for SQL
NULL; timestamps are epoch milliseconds. -/
structure Reservation where
  agent_name : String
  expires_ts : Int
  released_ts : Option Int
deriving DecidableEq, Repr

/-- Task row (`getTasks` / `bd list --json`).  `assignee` is `""` when
unset (JS falsy); `depends_on` / `blocked_by` are `none` when the field is
absent. -/
structure Task where
  id : String
  assignee : String
  status : String
  priority : Int
  depends_on : Option (List String)
  blocked_by : Option (List String)
deriving DecidableEq, Repr

/-- One parsed line of an `agent-*-activity.jsonl` file; only the `agent`
and `ts` fields are inspected by the aggregation. -/
structure ActivityRec where
  agent : String
  ts : String
deriving DecidableEq, Repr

/-- Per-agent record produced by the orchestration `agentStats` map.  The
`...agent` spread is the `agent` field. -/
structure AgentStat where
  agent : Agent
  reservation_count : Nat
  task_count : Nat
  open_tasks : Nat
  in_progress_tasks : Nat
  active : Bool
  activities : List ActivityRec
  current_activity : Option ActivityRec
deriving DecidableEq, Repr

/-- The body of one entry of the orchestration `agents.map(agent => ...)`:
reservation and task counts, and the `active` flag
`hasActiveReservations || inProgressTasks > 0` where an active reservation
satisfies `new Date(r.expires_ts) > new Date() && !r.released_ts`. -/
def agentStat (agent : Agent) (reservations : List Reservation)
    (tasks : List Task) (acts : List ActivityRec) (now : Int) : AgentStat :=
  let agentReservations := reservations.filter (fun r => r.agent_name == agent.name)
  let agentTasks := tasks.filter (fun t => t.assignee == agent.name)
  let openTasks := (agentTasks.filter (fun t => t.status == "open")).length
  let inProgressTasks := (agentTasks.filter (fun t => t.status == "in_progress")).length
  let hasActiveReservations :=
    agentReservations.any (fun r => decide (now < r.expires_ts) && r.released_ts.isNone)
  { agent := agent
    reservation_count := agentReservations.length
    task_count := agentTasks.length
    open_tasks := openTasks
    in_progress_tasks := inProgressTasks
    active := hasActiveReservations || decide (inProgressTasks > 0)
    activities := acts
    current_activity := acts.head? }

/-- Nested `by_priority` object of `task_stats`. -/
structure ByPriority where
  p0 : Nat
  p1 : Nat
  p2 : Nat
  p3 : Nat
  p4 : Nat
deriving DecidableEq, Repr

/-- `task_stats` object of the orchestration response. -/
structure TaskStats where
  total : Nat
  «open» : Nat
  in_progress : Nat
  blocked : Nat
  closed : Nat
  by_priority : ByPriority
deriving DecidableEq, Repr

/-- The `taskStats` computation of the orchestration GET handler: counts by
status and by priority over the full task list. -/
def taskStats (tasks : List Task) : TaskStats :=
  { total := tasks.length
    «open» := (tasks.filter (fun t => t.status == "open")).length
    in_progress := (tasks.filter (fun t => t.status == "in_progress")).length
    blocked := (tasks.filter (fun t => t.status == "blocked")).length
    closed := (tasks.filter (fun t => t.status == "closed")).length
    by_priority :=
      { p0 := (tasks.filter (fun t => t.priority == 0)).length
        p1 := (tasks.filter (fun t => t.priority == 1)).length
        p2 := (tasks.filter (fun t => t.priority == 2)).length
        p3 := (tasks.filter (fun t => t.priority == 3)).length
        p4 := (tasks.filter (fun t => t.priority == 4)).length } }

/-- `tasksWithDeps`: tasks whose `depends_on` or `blocked_by` is a
non-empty array (`(t.depends_on && t.depends_on.length > 0) || ...`). -/
def tasksWithDeps (tasks : List Task) : List Task :=
  tasks.filter (fun t =>
    (match t.depends_on with
     | some l => decide (l.length > 0)
     | none => false) ||
    (match t.blocked_by with
     | some l => decide (l.length > 0)
     | none => false))

/-- `unassignedTasks`: `!t.assignee && t.status === 'open'`. -/
def unassignedTasks (tasks : List Task) : List Task :=
  tasks.filter (fun t => t.assignee == "" && t.status == "open")

/-- The `reservationsByAgent` grouping (`reservations.forEach` push into a
map): one key per agent name in order of first appearance, each with that
agent's reservations in input order. -/
def reservationsByAgent (rs : List Reservation) : List (String × List Reservation) :=
  ((rs.map (·.agent_name)).eraseDups).map
    (fun n => (n, rs.filter (fun r => r.agent_name == n)))

/-- Look up an agent's activity list in the activities map
(`activities[agent.name] || []`). -/
def activitiesFor (acts : List (String × List ActivityRec)) (name : String) :
    List ActivityRec :=
  (acts.find? (fun p => p.1 == name)).map (·.2) |>.getD []

/-- Success-response body of the orchestration GET handler (the `timestamp`
and `meta` fields, which carry no aggregated data, are omitted; the
`error`/`message` fields are `none` on success and set by the catch
block). -/
structure OrchBody where
  agents : List AgentStat
  reservations : List Reservation
  reservations_by_agent : List (String × List Reservation)
  tasks : List Task
  unassigned_tasks : List Task
  task_stats : TaskStats
  tasks_with_deps_count : Nat
  tasks_with_deps : List Task
  error : Option String
  message : Option String
deriving DecidableEq, Repr

/-- The success-path response shaping of the orchestration GET handler:
`tasks` is truncated to the first 100 entries (`tasks.slice(0, 100)`),
every other section is computed over the full task list. -/
def orchestrationResponse (agents : List Agent) (reservations : List Reservation)
    (tasks : List Task) (acts : List (String × List ActivityRec)) (now : Int) :
    OrchBody :=
  { agents := agents.map
      (fun a => agentStat a reservations tasks (activitiesFor acts a.name) now)
    reservations := reservations
    reservations_by_agent := reservationsByAgent reservations
    tasks := tasks.take 100
    unassigned_tasks := unassignedTasks tasks
    task_stats := taskStats tasks
    tasks_with_deps_count := (tasksWithDeps tasks).length
    tasks_with_deps := tasksWithDeps tasks
    error := none
    message := none }

/-! ## Activity-log readers -/

/-- `pat.isPrefixOf` at any position — the JS `String.prototype.includes`
substring test, on character lists. -/
def listIncludesAux (pat : List Char) : List Char → Bool
  | [] => pat.isPrefixOf ([] : List Char)
  | c :: rest => pat.isPrefixOf (c :: rest) || listIncludesAux pat rest

/-- JS `s.includes(pat)`. -/
def jsIncludes (s pat : String) : Bool :=
  listIncludesAux pat.data s.data

/-- Executable model of JS `String.prototype.trim`: drop leading and
trailing whitespace characters. -/
def jsTrim (s : String) : String :=
  ⟨((s.data.dropWhile Char.isWhitespace).reverse.dropWhile
    Char.isWhitespace).reverse⟩

/-- Split a character list at `'\n'`, keeping empty segments, as JS
`split('\n')` does. -/
def splitNewlineAux : List Char → List Char → List (List Char)
  | [], acc => [acc.reverse]
  | ch :: rest, acc =>
    if ch = '\n' then acc.reverse :: splitNewlineAux rest []
    else splitNewlineAux rest (ch :: acc)

/-- Executable model of JS `s.split('\n')`. -/
def jsSplitNewline (s : String) : List String :=
  (splitNewlineAux s.data []).map (fun l => ⟨l⟩)

/-- Insert into a list kept sorted descending by an integer key (stable,
used to model `Array.prototype.sort` with comparator
`(a, b) => dateVal(b) - dateVal(a)`). -/
def insertDescBy {α : Type} (key : α → Int) (a : α) : List α → List α
  | [] => [a]
  | b :: rest =>
    if key a ≤ key b then b :: insertDescBy key a rest else a :: b :: rest

/-- Stable sort, descending by an integer key. -/
def sortDescBy {α : Type} (key : α → Int) (l : List α) : List α :=
  l.foldl (fun acc a => insertDescBy key a acc) []

/-- Split a file's content into JSONL candidate lines and parse each,
skipping malformed ones:
`content.trim().split('\n').filter(line => line.length > 0)` followed by a
per-line `JSON.parse` whose failures are caught and skipped.  `parseLine`
is the JSON parsing oracle: `none` models a line on which `JSON.parse`
throws (or that lacks the fields). -/
def parseActivityLines (parseLine : String → Option ActivityRec)
    (content : String) : List ActivityRec :=
  ((jsSplitNewline (jsTrim content)).filter
    (fun line => line.length > 0)).filterMap parseLine

/-- `getAgentActivities` from the orchestration endpoint: read every
`*-activity.jsonl` file under `.claude`, parse its lines, skip records
without an `agent` field, group by agent, sort each group by timestamp
descending and keep the last `limit` records.  A missing `.claude`
directory yields the empty mapping; a file whose read fails is skipped
(inner catch); `dateVal` models `new Date(s).getTime()`. -/
def getAgentActivities (dirExists : Bool) (files : List String)
    (readF : String → Except String String)
    (parseLine : String → Option ActivityRec) (dateVal : String → Int)
    (limit : Nat) : List (String × List ActivityRec) :=
  if !dirExists then []
  else
    let activityFiles := files.filter (fun f => jsIncludes f "-activity.jsonl")
    let collected := activityFiles.foldl (fun acc f =>
      match readF f with
      | .error _ => acc
      | .ok content =>
        acc ++ ((parseActivityLines parseLine content).filter
          (fun a => a.agent != ""))) []
    ((collected.map (·.agent)).eraseDups).map (fun n =>
      (n, (sortDescBy (fun a => dateVal a.ts)
        (collected.filter (fun a => a.agent == n))).take limit))

/-- Beads task as parsed from `bd list --json` output, fields used by
`getAgentActivitiesFromBeads`; `""` stands for a null/absent string. -/
structure BeadsTask where
  id : String
  title : String
  description : String
  closed_at : String
  updated_at : String
  created_at : String
deriving DecidableEq, Repr

/-- AgentCard-compatible activity produced by
`getAgentActivitiesFromBeads`. -/
structure BeadsActivity where
  ts : String
  preview : String
  content : String
  type : String
  taskId : String
deriving DecidableEq, Repr

/-- JS `a || b || c` on strings (first truthy, i.e. non-empty, value). -/
def jsOr3 (a b c : String) : String :=
  if a != "" then a else if b != "" then b else c

/-- The `tasks.map(task => ...)` body of `getAgentActivitiesFromBeads`. -/
def toActivity (task : BeadsTask) : BeadsActivity :=
  { ts := jsOr3 task.closed_at task.updated_at task.created_at
    preview := "[" ++ task.id ++ "] " ++ task.title
    content := if task.description != "" then task.description else task.title
    type := "task"
    taskId := task.id }

/-- Possible results of `JSON.parse` on the `bd` stdout, as far as the
reader inspects them: an array of tasks, or any non-array value. -/
inductive BdParse where
  | arr (tasks : List BeadsTask)
  | notArray
deriving DecidableEq, Repr

/-- `getAgentActivitiesFromBeads` (`beadsActivity.js`): throws only when
the required agent name is missing (JS falsy, i.e. `""`); every other
failure — exec error, stderr with empty stdout, empty output, unparsable
or non-array JSON — is caught and yields `[]`.  `execResult` models
`execAsync` (`.error` = rejected promise), `parse` models `JSON.parse`
(`none` = parse exception), `dateVal` models `new Date(s).getTime()`. -/
def getAgentActivitiesFromBeads (agentName : String)
    (execResult : Except String (String × String))
    (parse : String → Option BdParse) (dateVal : String → Int) :
    Except String (List BeadsActivity) :=
  if agentName = "" then .error "Agent name is required"
  else
    match execResult with
    | .error _ => .ok []
    | .ok (stdout, stderr) =>
      if stderr != "" && stdout == "" then .ok []
      else if jsTrim stdout = "" then .ok []
      else
        match parse stdout with
        | none => .ok []
        | some .notArray => .ok []
        | some (.arr tasks) =>
          .ok ((sortDescBy (fun a => dateVal a.ts) (tasks.map toActivity)).take 10)

/-! ## Orchestration GET handler (fan-out and catch block) -/

/-- Zero-valued error body produced by the orchestration catch block:
every collection empty, all counts zero, plus the `error`/`message`
fields. -/
def orchErrorBody (msg : String) : OrchBody :=
  { agents := []
    reservations := []
    reservations_by_agent := []
    tasks := []
    unassigned_tasks := []
    task_stats :=
      { total := 0, «open» := 0, in_progress := 0, blocked := 0, closed := 0
        by_priority := { p0 := 0, p1 := 0, p2 := 0, p3 := 0, p4 := 0 } }
    tasks_with_deps_count := 0
    tasks_with_deps := []
    error := some "Failed to fetch orchestration data"
    message := some msg }

/-- The orchestration GET handler: `getAgents`, `getReservations` and
`getTasks` are invoked synchronously while building the `Promise.all`
array, so the first of them to throw (in source order) reaches the catch
block, which answers HTTP 500 with the zero-valued body;
`getAgentActivities` catches its own failures and never throws.  When all
three readers succeed the handler answers HTTP 200 with the aggregated
body. -/
def orchestrationGET (agentsR : Except String (List Agent))
    (reservationsR : Except String (List Reservation))
    (tasksR : Except String (List Task)) (dirExists : Bool)
    (files : List String) (readF : String → Except String String)
    (parseLine : String → Option ActivityRec) (dateVal : String → Int)
    (now : Int) : Nat × OrchBody :=
  match agentsR with
  | .error e => (500, orchErrorBody e)
  | .ok agents =>
    match reservationsR with
    | .error e => (500, orchErrorBody e)
    | .ok reservations =>
      match tasksR with
      | .error e => (500, orchErrorBody e)
      | .ok tasks =>
        (200, orchestrationResponse agents reservations tasks
          (getAgentActivities dirExists files readF parseLine dateVal 10) now)

/-! ## Sparkline TTL cache and GET handler -/

/-- One cache entry: the cached payload and its creation timestamp
(`Date.now()` at `setCache` time, epoch milliseconds). -/
structure CacheEntry (α : Type) where
  data : α
  timestamp : Int
deriving DecidableEq, Repr

/-- The in-memory cache `Map`, as an association list keyed by the derived
cache key. -/
abbrev CacheMap (α : Type) : Type := List (String × CacheEntry α)

/-- `cache.get(key)`. -/
def cacheFind {α : Type} (cache : CacheMap α) (key : String) :
    Option (CacheEntry α) :=
  (cache.find? (fun p => p.1 == key)).map (·.2)

/-- `cache.delete(key)`. -/
def cacheDelete {α : Type} (cache : CacheMap α) (key : String) : CacheMap α :=
  cache.filter (fun p => p.1 != key)

/-- `CACHE_TTL_MS = 30 * 1000`. -/
def CACHE_TTL_MS : Int := 30 * 1000

/-- `getCached(key)`: miss (`null`) when the key is absent; when present,
compute `age = Date.now() - entry.timestamp`, delete the entry and miss if
`age > CACHE_TTL_MS`, otherwise return the entry's data with its age.
Returns the result together with the cache map after the call (the JS
function mutates the shared `Map`). -/
def getCached {α : Type} (cache : CacheMap α) (key : String) (now : Int) :
    Option (α × Int) × CacheMap α :=
  match cacheFind cache key with
  | none => (none, cache)
  | some entry =>
    let age := now - entry.timestamp
    if age > CACHE_TTL_MS then (none, cacheDelete cache key)
    else (some (entry.data, age), cache)

/-- `setCache(key, data)`: `cache.set(key, { data, timestamp: Date.now() })`
(overwrites any previous entry for the key). -/
def setCache {α : Type} (cache : CacheMap α) (key : String) (data : α)
    (now : Int) : CacheMap α :=
  (key, CacheEntry.mk data now) :: cacheDelete cache key

/-- `getCacheKey`: template string
`` `${range}-${agent}-${session}-${bucketSize}` `` over the destructured
parameters, whose defaults (`'24h'`, `''`, `''`, `'30min'`) apply only to
absent (`undefined`) fields. -/
def getCacheKey (range agent session bucketSize : Option String) : String :=
  (range.getD "24h") ++ "-" ++ (agent.getD "") ++ "-" ++
    (session.getD "") ++ "-" ++ (bucketSize.getD "30min")

/-- JS `x || default` on a nullable string: `null`/`undefined` and `""` are
falsy. -/
def jsOrDefault (o : Option String) (d : String) : String :=
  match o with
  | none => d
  | some s => if s == "" then d else s

/-- JS `x || undefined` on a nullable string. -/
def jsOrUndef (o : Option String) : Option String :=
  match o with
  | none => none
  | some s => if s == "" then none else some s

/-- Sparkline GET response: a 400 listing the valid values for a bad enum
parameter, or a 200 carrying the payload plus cache metadata
(`fetchDuration` is included only on the recompute path). -/
inductive SparkResp (α : Type) where
  | invalid (error message : String) (validValues : List String)
  | ok (data : α) (cached : Bool) (cacheAge : Int) (fetchDuration : Option Int)
deriving DecidableEq, Repr

/-- The cache-lookup-or-compute tail of the sparkline GET handler:
`const cached = getCached(cacheKey); if (cached) { ...cached.data,
cached: true, cacheAge }` else compute (`getTokenTimeSeries`, abstracted
as the pure `compute` oracle, a function of the request time), store, and
answer with `cached: false`, `cacheAge: 0` and a `fetchDuration` field.
The request is modelled as instantaneous, so the reported `fetchDuration`
is 0. -/
def sparklineServe {α : Type} (compute : Int → α) (cacheKey : String)
    (cache : CacheMap α) (now : Int) : SparkResp α × CacheMap α :=
  let found := getCached cache cacheKey now
  match found.1 with
  | some da => (.ok da.1 true da.2 none, found.2)
  | none =>
    let result := compute now
    (.ok result false 0 (some 0), setCache found.2 cacheKey result now)

/-- The sparkline GET handler: default and validate `range` and
`bucketSize` (answering 400 with the valid values on a bad enum), derive
the cache key, then serve from cache or recompute. -/
def sparklineGET {α : Type} (compute : Int → α)
    (rangeQ agentQ sessionQ bucketQ : Option String) (cache : CacheMap α)
    (now : Int) : SparkResp α × CacheMap α :=
  let range := jsOrDefault rangeQ "24h"
  let agentName := jsOrUndef agentQ
  let sessionId := jsOrUndef sessionQ
  let bucketSize := jsOrDefault bucketQ "30min"
  if !(["24h", "7d", "all"].contains range) then
    (.invalid "Invalid range parameter" "Range must be: 24h, 7d, or all"
      ["24h", "7d", "all"], cache)
  else if !(["30min", "hour", "session"].contains bucketSize) then
    (.invalid "Invalid bucketSize parameter"
      "Bucket size must be: 30min, hour, or session"
      ["30min", "hour", "session"], cache)
  else
    sparklineServe compute
      (getCacheKey (some range) agentName sessionId (some bucketSize)) cache now

/-- C2: the cost calculator is the stated pure linear function of the four
token classes, and it returns exactly 3.00, 3.75, 0.30 and 15.00 USD for
1,000,000 tokens of the respective single class, and 0 for all-zero input. -/
theorem calculateCost_spec :
    (∀ u : TokenUsage,
      calculateCost u =
        u.input_tokens / 1000000 * 3 +
        u.cache_creation_input_tokens / 1000000 * (375/100) +
        u.cache_read_input_tokens / 1000000 * (30/100) +
        u.output_tokens / 1000000 * 15) ∧
    calculateCost ⟨1000000, 0, 0, 0⟩ = 3 ∧
    calculateCost ⟨0, 1000000, 0, 0⟩ = 375/100 ∧
    calculateCost ⟨0, 0, 1000000, 0⟩ = 30/100 ∧
    calculateCost ⟨0, 0, 0, 1000000⟩ = 15 ∧
    calculateCost ⟨0, 0, 0, 0⟩ = 0 := by
  refine ⟨fun u => ?_, by norm_num [calculateCost], by norm_num [calculateCost],
    by norm_num [calculateCost], by norm_num [calculateCost], by norm_num [calculateCost]⟩
  simp only [calculateCost]
  norm_num
  ring

/-- C9: staleness is a function of the single quantity `now - last_activity`
(milliseconds): working iff it is below 10 minutes, idle iff it is in
[10, 60) minutes, sleeping iff it is at least 60 minutes; every agent falls
in exactly one class, and the classification reads nothing but the
last-activity timestamp (in particular not any `active` flag). -/
theorem staleness_classification (now : Int) (a : MetricsAgent) :
    (isWorking now a = true ↔ now - a.last_activity_ts < 600000) ∧
    (isIdle now a = true ↔
      600000 ≤ now - a.last_activity_ts ∧ now - a.last_activity_ts < 3600000) ∧
    (isSleeping now a = true ↔ 3600000 ≤ now - a.last_activity_ts) ∧
    ((isWorking now a = true ∧ isIdle now a = false ∧ isSleeping now a = false) ∨
     (isWorking now a = false ∧ isIdle now a = true ∧ isSleeping now a = false) ∨
     (isWorking now a = false ∧ isIdle now a = false ∧ isSleeping now a = true)) := by
  have h60 : (0 : ℚ) < 60000 := by norm_num
  have hw : isWorking now a = true ↔ now - a.last_activity_ts < 600000 := by
    rw [isWorking, decide_eq_true_iff, minutesSinceActivity, div_lt_iff h60]
    norm_num
    exact_mod_cast Iff.rfl
  have hs : isSleeping now a = true ↔ 3600000 ≤ now - a.last_activity_ts := by
    rw [isSleeping, decide_eq_true_iff, minutesSinceActivity, le_div_iff h60]
    norm_num
    exact_mod_cast Iff.rfl
  have hi : isIdle now a = true ↔
      600000 ≤ now - a.last_activity_ts ∧ now - a.last_activity_ts < 3600000 := by
    rw [isIdle, Bool.and_eq_true, decide_eq_true_iff, decide_eq_true_iff,
      minutesSinceActivity, le_div_iff h60, div_lt_iff h60]
    norm_num
    constructor
    · rintro ⟨h1, h2⟩
      exact ⟨by exact_mod_cast h1, by exact_mod_cast h2⟩
    · rintro ⟨h1, h2⟩
      exact ⟨by exact_mod_cast h1, by exact_mod_cast h2⟩
  refine ⟨hw, hi, hs, ?_⟩
  rcases lt_trichotomy (now - a.last_activity_ts) 600000 with h | h | h
  · exact Or.inl ⟨hw.mpr h, by simp [Bool.eq_false_iff, Ne, hi, hs]; omega, by
      simp [Bool.eq_false_iff, Ne, hs]; omega⟩
  · exact Or.inr (Or.inl ⟨by simp [Bool.eq_false_iff, Ne, hw]; omega,
      hi.mpr (by omega), by simp [Bool.eq_false_iff, Ne, hs]; omega⟩)
  · by_cases h2 : now - a.last_activity_ts < 3600000
    · exact Or.inr (Or.inl ⟨by simp [Bool.eq_false_iff, Ne, hw]; omega,
        hi.mpr (by omega), by simp [Bool.eq_false_iff, Ne, hs]; omega⟩)
    · exact Or.inr (Or.inr ⟨by simp [Bool.eq_false_iff, Ne, hw]; omega,
        by simp [Bool.eq_false_iff, Ne, hi]; omega, hs.mpr (by omega)⟩)

/-- C1: in the orchestration per-agent record, `active` holds iff the agent
has at least one reservation that is unreleased and unexpired, or at least
one `in_progress` task assigned to it (independent signals, logical OR);
concretely, an agent with only an `in_progress` task is active, an agent
with only an active reservation is active, and an agent with neither is
not. -/
theorem agent_active_iff :
    (∀ (agent : Agent) (reservations : List Reservation) (tasks : List Task)
        (acts : List ActivityRec) (now : Int),
      (agentStat agent reservations tasks acts now).active = true ↔
        ((∃ r ∈ reservations, r.agent_name = agent.name ∧
            r.released_ts = none ∧ now < r.expires_ts) ∨
         (∃ t ∈ tasks, t.assignee = agent.name ∧ t.status = "in_progress"))) ∧
    (agentStat ⟨"A"⟩ [] [⟨"t1", "A", "in_progress", 1, none, none⟩] [] 0).active = true ∧
    (agentStat ⟨"A"⟩ [⟨"A", 1000, none⟩] [] [] 0).active = true ∧
    (agentStat ⟨"A"⟩ [] [] [] 0).active = false := by
  refine ⟨fun agent reservations tasks acts now => ?_, by decide, by decide, by decide⟩
  simp only [agentStat, Bool.or_eq_true, List.any_eq_true, List.mem_filter,
    Bool.and_eq_true, decide_eq_true_iff, beq_iff_eq, Option.isNone_iff_eq_none,
    gt_iff_lt, List.length_pos_iff_exists_mem]
  constructor
  · rintro (⟨r, ⟨hr, hname⟩, hexp, hrel⟩ | ⟨t, ht⟩)
    · exact Or.inl ⟨r, hr, hname, hrel, hexp⟩
    · rcases ht with ⟨⟨htt, hass⟩, hst⟩
      exact Or.inr ⟨t, htt, hass, hst⟩
  · rintro (⟨r, hr, hname, hrel, hexp⟩ | ⟨t, htt, hass, hst⟩)
    · exact Or.inl ⟨r, ⟨hr, hname⟩, hexp, hrel⟩
    · exact Or.inr ⟨t, ⟨htt, hass⟩, hst⟩

/-- Counting helper: the four status filters partition any task list whose
statuses all lie in the four known values. -/
lemma status_filter_lengths (l : List Task)
    (h : ∀ t ∈ l, t.status = "open" ∨ t.status = "in_progress" ∨
      t.status = "blocked" ∨ t.status = "closed") :
    (l.filter (fun t => t.status == "open")).length +
    (l.filter (fun t => t.status == "in_progress")).length +
    (l.filter (fun t => t.status == "blocked")).length +
    (l.filter (fun t => t.status == "closed")).length = l.length := by
  induction l with
  | nil => simp
  | cons a l ih =>
    have ha := h a (List.mem_cons_self a l)
    have hl := fun t ht => h t (List.mem_cons_of_mem a ht)
    rcases ha with h1 | h1 | h1 | h1 <;>
      simp [List.filter_cons, h1] <;> rw [← ih hl] <;> ring

/-- Counting helper: the five priority filters partition any task list
whose priorities all lie in 0–4. -/
lemma priority_filter_lengths (l : List Task)
    (h : ∀ t ∈ l, t.priority = 0 ∨ t.priority = 1 ∨ t.priority = 2 ∨
      t.priority = 3 ∨ t.priority = 4) :
    (l.filter (fun t => t.priority == 0)).length +
    (l.filter (fun t => t.priority == 1)).length +
    (l.filter (fun t => t.priority == 2)).length +
    (l.filter (fun t => t.priority == 3)).length +
    (l.filter (fun t => t.priority == 4)).length = l.length := by
  induction l with
  | nil => simp
  | cons a l ih =>
    have ha := h a (List.mem_cons_self a l)
    have hl := fun t ht => h t (List.mem_cons_of_mem a ht)
    rcases ha with h1 | h1 | h1 | h1 | h1 <;>
      simp [List.filter_cons, h1] <;> rw [← ih hl] <;> ring

/-- C3: for a task list in which every task has one of the four statuses
and a priority in 0–4, the four status counts of `task_stats` sum to
`total`, and independently the five `by_priority` counts sum to `total`. -/
theorem task_stats_partitions (tasks : List Task)
    (hs : ∀ t ∈ tasks, t.status = "open" ∨ t.status = "in_progress" ∨
      t.status = "blocked" ∨ t.status = "closed")
    (hp : ∀ t ∈ tasks, t.priority = 0 ∨ t.priority = 1 ∨ t.priority = 2 ∨
      t.priority = 3 ∨ t.priority = 4) :
    ((taskStats tasks).«open» + (taskStats tasks).in_progress +
      (taskStats tasks).blocked + (taskStats tasks).closed =
      (taskStats tasks).total) ∧
    ((taskStats tasks).by_priority.p0 + (taskStats tasks).by_priority.p1 +
      (taskStats tasks).by_priority.p2 + (taskStats tasks).by_priority.p3 +
      (taskStats tasks).by_priority.p4 = (taskStats tasks).total) :=
  ⟨status_filter_lengths tasks hs, priority_filter_lengths tasks hp⟩

/-- Witness for C3 at a concrete two-task list. -/
theorem task_stats_partitions_witness :
    ((taskStats [⟨"a", "", "open", 0, none, none⟩,
        ⟨"b", "X", "closed", 4, none, none⟩]).«open» +
      (taskStats [⟨"a", "", "open", 0, none, none⟩,
        ⟨"b", "X", "closed", 4, none, none⟩]).in_progress +
      (taskStats [⟨"a", "", "open", 0, none, none⟩,
        ⟨"b", "X", "closed", 4, none, none⟩]).blocked +
      (taskStats [⟨"a", "", "open", 0, none, none⟩,
        ⟨"b", "X", "closed", 4, none, none⟩]).closed =
      (taskStats [⟨"a", "", "open", 0, none, none⟩,
        ⟨"b", "X", "closed", 4, none, none⟩]).total) ∧
    ((taskStats [⟨"a", "", "open", 0, none, none⟩,
        ⟨"b", "X", "closed", 4, none, none⟩]).by_priority.p0 +
      (taskStats [⟨"a", "", "open", 0, none, none⟩,
        ⟨"b", "X", "closed", 4, none, none⟩]).by_priority.p1 +
      (taskStats [⟨"a", "", "open", 0, none, none⟩,
        ⟨"b", "X", "closed", 4, none, none⟩]).by_priority.p2 +
      (taskStats [⟨"a", "", "open", 0, none, none⟩,
        ⟨"b", "X", "closed", 4, none, none⟩]).by_priority.p3 +
      (taskStats [⟨"a", "", "open", 0, none, none⟩,
        ⟨"b", "X", "closed", 4, none, none⟩]).by_priority.p4 =
      (taskStats [⟨"a", "", "open", 0, none, none⟩,
        ⟨"b", "X", "closed", 4, none, none⟩]).total) :=
  task_stats_partitions
    [⟨"a", "", "open", 0, none, none⟩, ⟨"b", "X", "closed", 4, none, none⟩]
    (by decide) (by decide)

/-- C10: in every successful orchestration response, the `tasks` array is
the full task list truncated to its first 100 entries (hence at most 100
long), while `task_stats`, `unassigned_tasks`, `tasks_with_deps` and
`tasks_with_deps_count` are computed over the full list; when the full list
exceeds 100 tasks, `task_stats.total` strictly exceeds the length of the
returned `tasks` array. -/
theorem orchestration_truncates_tasks (agents : List Agent)
    (reservations : List Reservation) (tasks : List Task)
    (acts : List (String × List ActivityRec)) (now : Int) :
    (orchestrationResponse agents reservations tasks acts now).tasks =
      tasks.take 100 ∧
    (orchestrationResponse agents reservations tasks acts now).tasks.length ≤ 100 ∧
    (orchestrationResponse agents reservations tasks acts now).task_stats =
      taskStats tasks ∧
    (orchestrationResponse agents reservations tasks acts now).task_stats.total =
      tasks.length ∧
    (orchestrationResponse agents reservations tasks acts now).unassigned_tasks =
      unassignedTasks tasks ∧
    (orchestrationResponse agents reservations tasks acts now).tasks_with_deps =
      tasksWithDeps tasks ∧
    (orchestrationResponse agents reservations tasks acts now).tasks_with_deps_count =
      (tasksWithDeps tasks).length ∧
    (100 < tasks.length →
      (orchestrationResponse agents reservations tasks acts now).tasks.length <
      (orchestrationResponse agents reservations tasks acts now).task_stats.total) := by
  refine ⟨rfl, ?_, rfl, rfl, rfl, rfl, rfl, ?_⟩
  · simp [orchestrationResponse, List.length_take]
  · intro h
    simp only [orchestrationResponse, taskStats, List.length_take]
    omega

/-- Deleting a key removes every binding for it. -/
lemma cacheFind_cacheDelete {α : Type} (cache : CacheMap α) (key : String) :
    cacheFind (cacheDelete cache key) key = none := by
  induction cache with
  | nil => rfl
  | cons p rest ih =>
    by_cases h : p.1 = key
    · simp [cacheFind, cacheDelete, h]
    · simp only [cacheDelete, List.filter_cons] at ih ⊢
      simp only [cacheFind] at ih ⊢
      simp [List.find?, h, ih]

/-- C4 counterexample: with the TTL at 30,000 ms, a lookup of an entry
created at time 0 performed at time 30,000 — age exactly equal to the TTL,
hence not less than it — still returns the entry (and leaves it stored),
because the code expires only on `age > CACHE_TTL_MS`; the claim requires
a miss here. -/
theorem getCached_boundary_counterexample :
    (getCached (α := Nat) [("k", ⟨7, 0⟩)] "k" 30000).1 = some (7, 30000) ∧
    ¬((30000 : Int) - 0 < CACHE_TTL_MS) := by decide

/-- C4 (amended): `getCached` misses both for a key that was never set and
for an entry whose age exceeds the 30-second TTL; an entry is returned iff
its age is at most the TTL (the boundary `age = TTL` is a hit, not a miss);
an over-age entry is deleted from the store exactly on the lookup that
discovers it (the store is unchanged by every other lookup, and there is no
background sweeper in the model). -/
theorem getCached_ttl_lazy_expiry {α : Type} (cache : CacheMap α)
    (key : String) (now : Int) :
    (cacheFind cache key = none → getCached cache key now = (none, cache)) ∧
    (∀ e : CacheEntry α, cacheFind cache key = some e →
      now - e.timestamp ≤ CACHE_TTL_MS →
      getCached cache key now = (some (e.data, now - e.timestamp), cache)) ∧
    (∀ e : CacheEntry α, cacheFind cache key = some e →
      CACHE_TTL_MS < now - e.timestamp →
      getCached cache key now = (none, cacheDelete cache key) ∧
      cacheFind (cacheDelete cache key) key = none) := by
  refine ⟨fun h => ?_, fun e he hle => ?_, fun e he hgt => ⟨?_, cacheFind_cacheDelete cache key⟩⟩
  · simp [getCached, h]
  · simp [getCached, he, if_neg (by omega : ¬now - e.timestamp > CACHE_TTL_MS)]
  · simp [getCached, he, if_pos (by omega : now - e.timestamp > CACHE_TTL_MS)]

/-- Witness for C4 (amended): a fresh entry is served with its age; an
over-age entry misses and is evicted. -/
theorem getCached_ttl_lazy_expiry_witness :
    getCached (α := Nat) [("k", ⟨7, 0⟩)] "k" 10 = (some (7, 10), [("k", ⟨7, 0⟩)]) ∧
    getCached (α := Nat) [("k", ⟨7, 0⟩)] "k" 40000 =
      (none, cacheDelete [("k", ⟨7, 0⟩)] "k") := by
  exact ⟨(getCached_ttl_lazy_expiry [("k", ⟨7, 0⟩)] "k" 10).2.1 ⟨7, 0⟩ rfl (by decide),
    ((getCached_ttl_lazy_expiry [("k", ⟨7, 0⟩)] "k" 40000).2.2 ⟨7, 0⟩ rfl (by decide)).1⟩

/-- Splitting at a separator absent from the left parts is injective. -/
lemma append_sep_inj {α : Type} [DecidableEq α] (sep : α) :
    ∀ (a c b d : List α), sep ∉ a → sep ∉ c →
      a ++ sep :: b = c ++ sep :: d → a = c ∧ b = d := by
  intro a
  induction a with
  | nil =>
    intro c b d _ hc h
    cases c with
    | nil => simpa using h
    | cons y ys =>
      simp only [List.nil_append, List.cons_append, List.cons.injEq] at h
      exact absurd (h.1 ▸ List.mem_cons_self y ys) (h.1 ▸ hc)
  | cons x xs ih =>
    intro c b d ha hc h
    cases c with
    | nil =>
      simp only [List.nil_append, List.cons_append, List.cons.injEq] at h
      exact absurd (h.1 ▸ List.mem_cons_self x xs) (fun hx => ha (h.1 ▸ hx))
    | cons y ys =>
      simp only [List.cons_append, List.cons.injEq] at h
      obtain ⟨rfl, h2⟩ := h
      have := ih ys b d (fun hx => ha (List.mem_cons_of_mem _ hx))
        (fun hx => hc (List.mem_cons_of_mem _ hx)) h2
      exact ⟨by rw [this.1], this.2⟩

/-- C5 counterexample: two requests that differ in the agent filter
(`"x-y"` vs `"x"`) and in the session filter map to the same cache key —
the hyphen-joined template is not injective on hyphen-containing values. -/
theorem getCacheKey_collision_counterexample :
    getCacheKey (some "24h") (some "x-y") (some "") (some "30min") =
      getCacheKey (some "24h") (some "x") (some "y-") (some "30min") ∧
    ("x-y" : String) ≠ "x" := by decide

/-- C5 (amended): the cache key is a total deterministic function of
exactly the four parameters, and it is injective on the domain actually
reachable with hyphen-free agent/session filters: for validated `range` and
`bucketSize` values and agent/session strings containing no `'-'`, two
parameter tuples map to the same key iff they are equal.  (Hyphen-containing
filters can collide, as the counterexample shows.) -/
theorem getCacheKey_deterministic_injective (r a s b r2 a2 s2 b2 : String)
    (hr : r ∈ (["24h", "7d", "all"] : List String))
    (hr2 : r2 ∈ (["24h", "7d", "all"] : List String))
    (ha : '-' ∉ a.data) (ha2 : '-' ∉ a2.data)
    (hs : '-' ∉ s.data) (hs2 : '-' ∉ s2.data) :
    getCacheKey (some r) (some a) (some s) (some b) =
      getCacheKey (some r2) (some a2) (some s2) (some b2) ↔
    (r = r2 ∧ a = a2 ∧ s = s2 ∧ b = b2) := by
  constructor
  · intro h
    have hrd : '-' ∉ r.data := by
      simp only [List.mem_cons, List.not_mem_nil, or_false] at hr
      rcases hr with rfl | rfl | rfl <;> decide
    have hr2d : '-' ∉ r2.data := by
      simp only [List.mem_cons, List.not_mem_nil, or_false] at hr2
      rcases hr2 with rfl | rfl | rfl <;> decide
    have hd := congrArg String.data h
    simp only [getCacheKey, Option.getD_some, String.data_append,
      List.append_assoc, List.singleton_append] at hd
    obtain ⟨h1, hd⟩ := append_sep_inj '-' _ _ _ _ hrd hr2d hd
    obtain ⟨h2, hd⟩ := append_sep_inj '-' _ _ _ _ ha ha2 hd
    obtain ⟨h3, hd⟩ := append_sep_inj '-' _ _ _ _ hs hs2 hd
    exact ⟨String.ext h1, String.ext h2, String.ext h3, String.ext hd⟩
  · rintro ⟨rfl, rfl, rfl, rfl⟩
    rfl

/-- Witness for C5 (amended) at a concrete hyphen-free parameter tuple. -/
theorem getCacheKey_deterministic_injective_witness :
    getCacheKey (some "24h") (some "RareBrook") (some "") (some "30min") =
      getCacheKey (some "24h") (some "RareBrook") (some "") (some "30min") ↔
    (("24h" : String) = "24h" ∧ ("RareBrook" : String) = "RareBrook" ∧
      ("" : String) = "" ∧ ("30min" : String) = "30min") :=
  getCacheKey_deterministic_injective "24h" "RareBrook" "" "30min"
    "24h" "RareBrook" "" "30min" (by decide) (by decide) (by decide)
    (by decide) (by decide) (by decide)

/-- A freshly set key is found with its new entry. -/
lemma cacheFind_setCache {α : Type} (cache : CacheMap α) (key : String)
    (data : α) (now : Int) :
    cacheFind (setCache cache key data now) key = some ⟨data, now⟩ := by
  simp [cacheFind, setCache, List.find?]

/-- A lookup within the TTL of a fresh `setCache` is a hit carrying the
entry's age. -/
lemma getCached_after_setCache {α : Type} (cache : CacheMap α) (key : String)
    (data : α) (now1 now2 : Int) (h : now2 - now1 ≤ CACHE_TTL_MS) :
    getCached (setCache cache key data now1) key now2 =
      (some (data, now2 - now1), setCache cache key data now1) := by
  simp [getCached, cacheFind_setCache, if_neg (by omega : ¬now2 - now1 > CACHE_TTL_MS)]

/-- `sparklineServe` on a cache hit. -/
lemma sparklineServe_hit {α : Type} (compute : Int → α) (key : String)
    (cache : CacheMap α) (now : Int) (d : α) (age : Int)
    (h : (getCached cache key now).1 = some (d, age)) :
    sparklineServe compute key cache now =
      (SparkResp.ok d true age none, (getCached cache key now).2) := by
  simp only [sparklineServe]
  rw [h]

/-- `sparklineServe` on a cache miss. -/
lemma sparklineServe_miss {α : Type} (compute : Int → α) (key : String)
    (cache : CacheMap α) (now : Int)
    (h : (getCached cache key now).1 = none) :
    sparklineServe compute key cache now =
      (SparkResp.ok (compute now) false 0 (some 0),
        setCache (getCached cache key now).2 key (compute now) now) := by
  simp only [sparklineServe]
  rw [h]

/-- C6 counterexample, two parts.  (1) With an empty cache, a first request
at t = 0 (a miss) answers with a `fetchDuration` field while the identical
request at t = 1000 (a hit, `cached: true`) answers without one — the two
payloads differ in a field other than `cached`/`cacheAge`.  (2) Identical
requests at t = 29000 and t = 31000 — issued 2000 ms apart, well within a
30-second window — get a hit and then a miss: the second response reports
`cached: false`, because the cached entry (created at t = 0) is not
refreshed by hits and expires in between. -/
theorem sparkline_idempotence_counterexample :
    ((sparklineGET (fun _ => (42 : Nat)) none none none none [] 0).1 =
      SparkResp.ok 42 false 0 (some 0)) ∧
    ((sparklineGET (fun _ => (42 : Nat)) none none none none
        ((sparklineGET (fun _ => (42 : Nat)) none none none none [] 0).2)
        1000).1 = SparkResp.ok 42 true 1000 none) ∧
    ((sparklineGET (fun _ => (42 : Nat)) none none none none
        ((sparklineGET (fun _ => (42 : Nat)) none none none none [] 0).2)
        29000).1 = SparkResp.ok 42 true 29000 none) ∧
    ((sparklineGET (fun _ => (42 : Nat)) none none none none
        ((sparklineGET (fun _ => (42 : Nat)) none none none none [] 0).2)
        31000).1 = SparkResp.ok 42 false 0 (some 0)) := by decide

/-- C6 (amended): if the first of two identical sparkline requests is a
cache miss at time `now1`, then an identical request at any `now2` within
the 30-second TTL of `now1` is answered from the cache: it reports
`cached: true`, its `cacheAge` is `now2 - now1`, and its payload is the
first response's payload — the two responses agree on everything except
`cached`, `cacheAge`, and `fetchDuration` (which only the miss response
carries). -/
theorem sparkline_cache_idempotence {α : Type} (compute : Int → α)
    (rangeQ agentQ sessionQ bucketQ : Option String) (cache : CacheMap α)
    (now1 now2 : Int) (d : α)
    (h1 : (sparklineGET compute rangeQ agentQ sessionQ bucketQ cache now1).1 =
      SparkResp.ok d false 0 (some 0))
    (h3 : now2 - now1 ≤ CACHE_TTL_MS) :
    (sparklineGET compute rangeQ agentQ sessionQ bucketQ
      ((sparklineGET compute rangeQ agentQ sessionQ bucketQ cache now1).2)
      now2).1 = SparkResp.ok d true (now2 - now1) none := by
  rcases hc1 : (["24h", "7d", "all"].contains (jsOrDefault rangeQ "24h")) with _ | _
  · rw [sparklineGET, hc1] at h1
    simp at h1
  · rcases hc2 : (["30min", "hour", "session"].contains
        (jsOrDefault bucketQ "30min")) with _ | _
    · rw [sparklineGET, hc1, hc2] at h1
      simp at h1
    · rw [sparklineGET, hc1, hc2] at h1
      simp only [Bool.not_true, Bool.false_eq_true, if_false] at h1
      rcases hfind : (getCached cache
          (getCacheKey (some (jsOrDefault rangeQ "24h")) (jsOrUndef agentQ)
            (jsOrUndef sessionQ) (some (jsOrDefault bucketQ "30min"))) now1).1 with
        _ | ⟨dd, age⟩
      · rw [sparklineServe_miss _ _ _ _ hfind] at h1
        simp only [SparkResp.ok.injEq] at h1
        obtain ⟨rfl, -, -, -⟩ := h1
        have hstate : (sparklineGET compute rangeQ agentQ sessionQ bucketQ
            cache now1).2 =
            setCache (getCached cache
                (getCacheKey (some (jsOrDefault rangeQ "24h")) (jsOrUndef agentQ)
                  (jsOrUndef sessionQ) (some (jsOrDefault bucketQ "30min")))
                now1).2
              (getCacheKey (some (jsOrDefault rangeQ "24h")) (jsOrUndef agentQ)
                (jsOrUndef sessionQ) (some (jsOrDefault bucketQ "30min")))
              (compute now1) now1 := by
          rw [sparklineGET, hc1, hc2]
          simp only [Bool.not_true, Bool.false_eq_true, if_false]
          rw [sparklineServe_miss _ _ _ _ hfind]
        rw [hstate, sparklineGET, hc1, hc2]
        simp only [Bool.not_true, Bool.false_eq_true, if_false]
        rw [sparklineServe_hit _ _ _ now2 _ (now2 - now1)
          (by rw [getCached_after_setCache _ _ _ now1 now2 h3])]
      · rw [sparklineServe_hit _ _ _ _ _ _ hfind] at h1
        simp at h1

/-- Witness for C6 (amended): the second of two identical default-parameter
requests, 1000 ms apart, is served from cache with the miss's payload. -/
theorem sparkline_cache_idempotence_witness :
    (sparklineGET (fun _ => (42 : Nat)) none none none none
      ((sparklineGET (fun _ => (42 : Nat)) none none none none [] 0).2)
      1000).1 = SparkResp.ok 42 true (1000 - 0) none :=
  sparkline_cache_idempotence (fun _ => (42 : Nat)) none none none none [] 0
    1000 42 (by decide) (by decide)

/-- C7 counterexample: with the agents and reservations readers succeeding
(one agent registered) and only the tasks reader failing, the orchestration
endpoint answers HTTP 500 — not 200 — and its body has the agents section
empty, so the failure was not degraded to only the tasks section. -/
theorem orchestration_fanout_counterexample :
    (orchestrationGET (.ok [⟨"A"⟩]) (.ok []) (.error "beads unavailable")
        true [] (fun _ => .error "") (fun _ => none) (fun _ => 0) 0).1 = 500 ∧
    (orchestrationGET (.ok [⟨"A"⟩]) (.ok []) (.error "beads unavailable")
        true [] (fun _ => .error "") (fun _ => none) (fun _ => 0) 0).2.agents =
      [] := by decide

/-- C7 (amended): only the activities file reader degrades in place (it
never throws, so the endpoint answers 200 with whatever activities could be
read whenever the other three readers succeed); a failure of the agents,
reservations, or tasks reader aborts the whole aggregation — the endpoint
answers HTTP 500 with every section in its empty/zero form plus
`error`/`message` annotations, regardless of the other readers having
succeeded. -/
theorem orchestration_error_handling (agentsR : Except String (List Agent))
    (reservationsR : Except String (List Reservation))
    (tasksR : Except String (List Task)) (dirExists : Bool)
    (files : List String) (readF : String → Except String String)
    (parseLine : String → Option ActivityRec) (dateVal : String → Int)
    (now : Int) :
    (∀ agents reservations tasks, agentsR = .ok agents →
      reservationsR = .ok reservations → tasksR = .ok tasks →
      orchestrationGET agentsR reservationsR tasksR dirExists files readF
          parseLine dateVal now =
        (200, orchestrationResponse agents reservations tasks
          (getAgentActivities dirExists files readF parseLine dateVal 10) now)) ∧
    (∀ e, agentsR = .error e →
      orchestrationGET agentsR reservationsR tasksR dirExists files readF
          parseLine dateVal now = (500, orchErrorBody e)) ∧
    (∀ e agents, agentsR = .ok agents → reservationsR = .error e →
      orchestrationGET agentsR reservationsR tasksR dirExists files readF
          parseLine dateVal now = (500, orchErrorBody e)) ∧
    (∀ e agents reservations, agentsR = .ok agents →
      reservationsR = .ok reservations → tasksR = .error e →
      orchestrationGET agentsR reservationsR tasksR dirExists files readF
          parseLine dateVal now = (500, orchErrorBody e)) ∧
    (∀ msg, (orchErrorBody msg).agents = [] ∧
      (orchErrorBody msg).reservations = [] ∧ (orchErrorBody msg).tasks = [] ∧
      (orchErrorBody msg).task_stats.total = 0 ∧
      (orchErrorBody msg).error = some "Failed to fetch orchestration data" ∧
      (orchErrorBody msg).message = some msg) := by
  refine ⟨fun agents reservations tasks ha hr ht => ?_, fun e ha => ?_,
    fun e agents ha hr => ?_, fun e agents reservations ha hr ht => ?_,
    fun msg => ⟨rfl, rfl, rfl, rfl, rfl, rfl⟩⟩
  · rw [orchestrationGET.eq_def, ha, hr, ht]
  · rw [orchestrationGET.eq_def, ha]
  · rw [orchestrationGET.eq_def, ha]
    rw [hr]
  · rw [orchestrationGET.eq_def, ha]
    rw [hr]
    rw [ht]

/-- Witness for C7 (amended): a concrete tasks-reader failure yields
HTTP 500 with the zero-valued body. -/
theorem orchestration_error_handling_witness :
    orchestrationGET (.ok ([] : List Agent)) (.ok ([] : List Reservation))
        (.error "boom") false [] (fun _ => .error "") (fun _ => none)
        (fun _ => 0) 0 = (500, orchErrorBody "boom") :=
  (orchestration_error_handling (.ok []) (.ok []) (.error "boom") false []
      (fun _ => .error "") (fun _ => none) (fun _ => 0) 0).2.2.2.1
    "boom" [] [] rfl rfl rfl

/-- C8: the source readers throw only for caller misuse.
`getAgentActivitiesFromBeads` rejects exactly the missing (empty) agent
name and otherwise always succeeds — an exec failure, stderr-only output,
empty output, unparsable JSON or non-array JSON all yield `ok` (possibly
empty); the endpoint's `getAgentActivities` yields the empty mapping when
the `.claude` directory is missing, and on the concrete scenario of one
activity file with two parsable lines around one malformed line it returns
exactly the two parsed records (the malformed line is skipped, the valid
lines still counted). -/
theorem readers_never_throw_for_absence (agentName : String)
    (execResult : Except String (String × String))
    (parse : String → Option BdParse) (dateVal : String → Int)
    (files : List String) (readF : String → Except String String)
    (parseLine : String → Option ActivityRec) (dateVal2 : String → Int)
    (limit : Nat) :
    (agentName ≠ "" →
      ∃ l, getAgentActivitiesFromBeads agentName execResult parse dateVal =
        .ok l) ∧
    (getAgentActivitiesFromBeads "" execResult parse dateVal =
      .error "Agent name is required") ∧
    (getAgentActivities false files readF parseLine dateVal2 limit = []) ∧
    (getAgentActivities true ["agent-x-activity.jsonl"]
        (fun _ => .ok "a\nbad\nb")
        (fun s => if s = "bad" then none else some ⟨"A", s⟩) (fun _ => 0) 10 =
      [("A", [⟨"A", "a"⟩, ⟨"A", "b"⟩])]) := by
  refine ⟨fun h => ?_, rfl, rfl, by decide⟩
  rw [getAgentActivitiesFromBeads.eq_def, if_neg h]
  rcases execResult with e | ⟨stdout, stderr⟩
  · exact ⟨[], rfl⟩
  · dsimp only
    split
    · exact ⟨[], rfl⟩
    · split
      · exact ⟨[], rfl⟩
      · rcases parse stdout with _ | ts | ⟨⟩
        all_goals first
          | exact ⟨[], rfl⟩
          | exact ⟨_, rfl⟩

/-- Witness for C8 at a concrete non-empty agent name. -/
theorem readers_never_throw_for_absence_witness :
    (∃ l, getAgentActivitiesFromBeads "WildStream" (.ok ("[]", ""))
      (fun _ => some (.arr [])) (fun _ => 0) = .ok l) ∧
    (getAgentActivitiesFromBeads "" (.ok ("[]", ""))
      (fun _ => some (.arr [])) (fun _ => 0) = .error "Agent name is required") :=
  ⟨(readers_never_throw_for_absence "WildStream" (.ok ("[]", ""))
      (fun _ => some (.arr [])) (fun _ => 0) [] (fun _ => .error "")
      (fun _ => none) (fun _ => 0) 10).1 (by decide),
    (readers_never_throw_for_absence "WildStream" (.ok ("[]", ""))
      (fun _ => some (.arr [])) (fun _ => 0) [] (fun _ => .error "")
      (fun _ => none) (fun _ => 0) 10).2.1⟩

/-- Witness for C10 at a concrete 101-task list: the returned `tasks` array
is shorter than `task_stats.total`. -/
theorem orchestration_truncates_tasks_witness :
    (orchestrationResponse [] []
        (List.replicate 101 ⟨"t", "", "open", 2, none, none⟩) [] 0).tasks.length <
    (orchestrationResponse [] []
        (List.replicate 101 ⟨"t", "", "open", 2, none, none⟩) []
        0).task_stats.total :=
  (orchestration_truncates_tasks [] []
      (List.replicate 101 ⟨"t", "", "open", 2, none, none⟩) [] 0).2.2.2.2.2.2.2
    (by simp)

end Jat
